import Mathlib

/-!
Verification of the PLI solar-charge-controller protocol driver
(`src/driver/pli-driver.js`, its circular buffer, the second driver
variant, and the protocol documentation's history-reading code).

JavaScript numbers in the byte-level paths are embedded as `Nat`
(all values involved stay below 2^31, where JS bitwise operators
agree with the mathematical operators); scaled readings use `ℚ` for
the decimal scale factors written literally in the source; signed
offset arithmetic in the history walk uses `Int`.
-/

set_option autoImplicit false

namespace PLI

/-- `buildCommand(cmd, addr, data = 0)` from `pli-driver.js`
(identical to `_buildCommand` in the second driver variant):
`check = cmd ^ addr ^ data ^ 0xFF`, result `[cmd, addr, data, check]`. -/
def buildCommand (cmd addr data : Nat) : List Nat :=
  let check := ((cmd ^^^ addr) ^^^ data) ^^^ 0xFF
  [cmd, addr, data, check]

/-- Command code `CMD.READ_RAM` from the driver. -/
def READ_RAM : Nat := 0x14

/-- Fixed start of the on-device history log, `0x2E`, from the
`readHistory` example in `docs/COMMUNICATION_PROTOCOL.md`. -/
def logStart : Int := 0x2E

/-- Fixed total span of the 30-day ring, `0xD2 = 210` bytes. -/
def ringSize : Int := 0xD2

/-- `baseOffset = 0x2E + 7 * pointer` from `readHistory` in
`docs/COMMUNICATION_PROTOCOL.md`. -/
def baseOffset (pointer : Int) : Int :=
  logStart + 7 * pointer

/-- The per-day offset computation of `readHistory` in
`docs/COMMUNICATION_PROTOCOL.md`:
`offset = baseOffset - 7*(day-1)`, wrapped to
`baseOffset + 0xD2 - 7*(day-1)` when it falls below `0x2E`. -/
def historyOffset (pointer day : Int) : Int :=
  let offset := baseOffset pointer - 7 * (day - 1)
  if offset < logStart then baseOffset pointer + ringSize - 7 * (day - 1)
  else offset

/-- A parsed daily history record, per `parseDayRecord` in
`docs/COMMUNICATION_PROTOCOL.md`. -/
structure DayRecord where
  vmax : ℚ
  vmin : ℚ
  floatHours : ℚ
  soc : Nat
  chargeAh : Nat
  loadAh : Nat
  deriving DecidableEq, Repr

/-- `parseDayRecord(data)` from `docs/COMMUNICATION_PROTOCOL.md`; the
free `systemVoltageRatio` of the source is taken as the parameter
`ratio`. -/
def parseDayRecord (ratio : ℚ) (data : List Nat) : DayRecord :=
  let b : Nat → Nat := fun i => data.getD i 0
  { vmax := (b 0 : ℚ) * (1 / 10) * ratio
    vmin := (b 1 : ℚ) * (1 / 10) * ratio
    floatHours := (b 2 : ℚ) * (1 / 10)
    soc := b 3
    chargeAh := b 4 + (b 6 &&& 0x0F) * 256
    loadAh := b 5 + ((b 6 &&& 0xF0) >>> 4) * 256 }

/-- One entry of the driver's `pendingReads`/`pending` map: the
address the read was issued for and the map key under which the
entry was inserted.  Map iteration order is insertion order, so the
first entry is the oldest. -/
structure Pending where
  addr : Nat
  id : Nat
  deriving DecidableEq, Repr

/-- The observable outcome of one `processResponses` run: the bytes
left in the lookback buffer, the surviving pending entries, the
request resolved by a data frame (with the value it received), and
the logged error bytes. -/
structure DecodeResult where
  buffer : List Nat
  pending : List Pending
  resolved : Option (Pending × Nat)
  errors : List Nat
  deriving DecidableEq, Repr

/-- `processResponses` from `pli-driver.js`: pop bytes off the
buffer; on `0xC8` consume the next byte as the frame value and, if
one is available, resolve (and delete) the first pending entry and
return; on `0x80` consume the following byte as an error code and
log it; any other byte is discarded. -/
def processResponses : List Nat → List Pending → DecodeResult
  | [], pending => ⟨[], pending, none, []⟩
  | b :: rest, pending =>
    if b = 0xC8 then
      match rest, pending with
      | [], _ => ⟨[], pending, none, []⟩
      | v :: rest2, p :: ps => ⟨rest2, ps, some (p, v), []⟩
      | _ :: rest2, [] => processResponses rest2 []
    else if b = 0x80 then
      match rest with
      | [] => ⟨[], pending, none, []⟩
      | c :: rest2 =>
        let r := processResponses rest2 pending
        ⟨r.buffer, r.pending, r.resolved, c :: r.errors⟩
    else
      processResponses rest pending

/-- `_processResponses` from the second driver variant: it peeks the
head byte, consumes `0xC8` plus a value byte for data frames
(resolving and deleting the first pending entry, then returning),
consumes a single byte for codes in `0x80..0x88` (logging it), and
skips anything else. -/
def processResponsesV2 : List Nat → List Pending → DecodeResult
  | [], pending => ⟨[], pending, none, []⟩
  | b :: rest, pending =>
    if b = 0xC8 then
      match rest, pending with
      | [], _ => ⟨[], pending, none, []⟩
      | v :: rest2, p :: ps => ⟨rest2, ps, some (p, v), []⟩
      | _ :: rest2, [] => processResponsesV2 rest2 []
    else if 0x80 ≤ b ∧ b ≤ 0x88 then
      let r := processResponsesV2 rest pending
      ⟨r.buffer, r.pending, r.resolved, b :: r.errors⟩
    else
      processResponsesV2 rest pending

/-- Failure kinds of the driver's error taxonomy that the embedded
operations can emit. -/
inductive Failure where
  | timeout (id : Nat)
  | channelClosed (id : Nat)
  deriving DecidableEq, Repr

/-- Driver connection/correlation state: the pending read entries in
insertion order, the `isConnected` flag of `pli-driver.js`, and the
`reconnectTimer`-armed flag of the second variant. -/
structure DriverState where
  pending : List Pending
  isConnected : Bool
  reconnectScheduled : Bool
  deriving DecidableEq, Repr

/-- The `read(addr, timeout)` submission path from `pli-driver.js`:
if not connected the promise rejects at once (second component
`false`); otherwise a fresh entry is inserted into `pendingReads`
and the command is written.  There is no queueing: the entry is
always appended. -/
def submitRead (s : DriverState) (addr id : Nat) : DriverState × Bool :=
  if s.isConnected then
    ({ s with pending := s.pending ++ [⟨addr, id⟩] }, true)
  else (s, false)

/-- The driver's `setTimeout` expiry callback for request `id`: if
the entry is still in `pendingReads` it is deleted and the promise
rejected with the timeout failure; otherwise nothing happens. -/
def onTimeout (id : Nat) (pending : List Pending) :
    List Pending × Option Failure :=
  if pending.any (fun e => e.id == id) then
    (pending.eraseP (fun e => e.id == id), some (Failure.timeout id))
  else (pending, none)

/-- Delivery of one complete Data frame `[0xC8, v]` to the decoder. -/
def onData (v : Nat) (pending : List Pending) : DecodeResult :=
  processResponsesV2 [0xC8, v] pending

/-- The id of the request a decoder run resolved, if any. -/
def resolvedId (r : DecodeResult) : Option Nat :=
  r.resolved.map (fun pv => pv.1.id)

/-- The socket `close` handler of `pli-driver.js`: it only clears
`isConnected`; `pendingReads` is untouched and no rejection of any
kind is issued. -/
def onClose (s : DriverState) : DriverState × List Failure :=
  ({ s with isConnected := false }, [])

/-- `_scheduleReconnect` of the second driver variant: arms the
reconnect timer unless one is already armed. -/
def scheduleReconnect (s : DriverState) : DriverState :=
  if s.reconnectScheduled then s else { s with reconnectScheduled := true }

/-- The socket `close` handler of the second driver variant: emits
`disconnected` and schedules a reconnect; `pending` is untouched and
no rejection of any kind is issued. -/
def onCloseV2 (s : DriverState) : DriverState × List Failure :=
  (scheduleReconnect s, [])

/-- Controller model, `options.model` restricted to the three values
the drivers know. -/
inductive Model where
  | PL20
  | PL40
  | PL60
  deriving DecidableEq, Repr

/-- `multipliers = { PL20: 0.1, PL40: 0.2, PL60: 0.4 }` from
`readChargeCurrent`. -/
def modelMultiplier : Model → ℚ
  | Model.PL20 => 1 / 10
  | Model.PL40 => 2 / 10
  | Model.PL60 => 4 / 10

/-- `readBatteryVoltage` decode step from `pli-driver.js`: the system
voltage is hard-coded to 12, so the scale factor is `12 / 12`. -/
def readBatteryVoltage (raw : ℚ) : ℚ :=
  raw * (12 / 12)

/-- `readBatteryTemp` decode step: `raw - 100`. -/
def readBatteryTemp (raw : Int) : Int :=
  raw - 100

/-- `readSOC` decode step: the raw value, already a percentage. -/
def readSOC (raw : Nat) : Nat :=
  raw

/-- `readSolarVoltage` decode step: `raw * 0.5`. -/
def readSolarVoltage (raw : ℚ) : ℚ :=
  raw * (1 / 2)

/-- `readChargeCurrent` decode step: `raw` times the model
multiplier. -/
def readChargeCurrent (m : Model) (raw : ℚ) : ℚ :=
  raw * modelMultiplier m

/-- The `STATE` table of the second driver variant (codes 0..7). -/
def STATE : Nat → Option String
  | 0 => some "BOOST"
  | 1 => some "EQUALIZE"
  | 2 => some "ABSORPTION"
  | 3 => some "FLOAT"
  | 4 => some "RESTRICTED"
  | 5 => some "LVD"
  | 6 => some "SHORT_EQ"
  | 7 => some "UNDEFINED"
  | _ => none

/-- The `STATE` table of `pli-driver.js` (codes 0..5 only). -/
def STATE_V1 : Nat → Option String
  | 0 => some "BOOST"
  | 1 => some "EQUALIZE"
  | 2 => some "ABSORPTION"
  | 3 => some "FLOAT"
  | 4 => some "RESTRICTED"
  | 5 => some "LVD"
  | _ => none

/-- `getState` decode step of the second variant:
`STATE[raw] || 'UNKNOWN'`. -/
def readState (raw : Nat) : String :=
  (STATE raw).getD "UNKNOWN"

/-- `readState` decode step of `pli-driver.js`, with its shorter
table. -/
def readStateV1 (raw : Nat) : String :=
  (STATE_V1 raw).getD "UNKNOWN"

/-- The spec's reference decode of battery voltage,
`raw * systemVoltageRatio`.  Modelled from the spec table, for
comparison with the driver's `readBatteryVoltage`. -/
def specBatteryVoltage (ratio : ℚ) (raw : ℚ) : ℚ :=
  raw * ratio

/-- The driver's circular buffer (`buffer.js`), required by
`pli-driver.js` as `this.buffer`: a zero-filled byte array with
`head`, `tail` and `count` cursors. -/
structure CircularBuffer where
  buffer : List Nat
  head : Nat
  tail : Nat
  size : Nat
  count : Nat
  deriving DecidableEq, Repr

/-- `new CircularBuffer(size)`: `Buffer.alloc(size)` (zero-filled),
`head = tail = count = 0`. -/
def CircularBuffer.empty (size : Nat) : CircularBuffer :=
  ⟨List.replicate size 0, 0, 0, size, 0⟩

/-- `writeByte` from `buffer.js`, transcribed exactly: the head index
is advanced (or, on overflow, the tail pushed) before the byte is
stored at the (new) head. -/
def CircularBuffer.writeByte (s : CircularBuffer) (b : Nat) : CircularBuffer :=
  let next := (s.head + 1) % s.size
  let s1 := if next = s.tail then { s with tail := (s.tail + 1) % s.size }
            else { s with head := next }
  let s2 := { s1 with buffer := s1.buffer.set s1.head b }
  if s2.count < s2.size then { s2 with count := s2.count + 1 } else s2

/-- `write(data)` from `buffer.js`: `writeByte` for each byte in
order. -/
def CircularBuffer.write (s : CircularBuffer) (data : List Nat) : CircularBuffer :=
  data.foldl CircularBuffer.writeByte s

/-- `readByte` from `buffer.js`: `null` when empty, else the byte at
`tail`, advancing `tail` and decrementing `count`. -/
def CircularBuffer.readByte (s : CircularBuffer) : CircularBuffer × Option Nat :=
  if s.count = 0 then (s, none)
  else ({ s with tail := (s.tail + 1) % s.size, count := s.count - 1 },
        some (s.buffer.getD s.tail 0))

/-- The server-side `CircularBuffer` of the second source variant
(`server.js`), kept apart because its `write` differs from
`buffer.js`. -/
structure ServerCircularBuffer where
  buffer : List Nat
  head : Nat
  tail : Nat
  size : Nat
  count : Nat
  deriving DecidableEq, Repr

/-- `new CircularBuffer(size)` from `server.js`. -/
def ServerCircularBuffer.empty (size : Nat) : ServerCircularBuffer :=
  ⟨List.replicate size 0, 0, 0, size, 0⟩

/-- One iteration of the `write` loop from `server.js`: store at
`head`, then advance `head`; on a full buffer advance `tail` instead
of growing `count`. -/
def ServerCircularBuffer.write1 (s : ServerCircularBuffer) (b : Nat) :
    ServerCircularBuffer :=
  let s1 := { s with buffer := s.buffer.set s.head b,
                     head := (s.head + 1) % s.size }
  if s1.count < s1.size then { s1 with count := s1.count + 1 }
  else { s1 with tail := (s1.tail + 1) % s1.size }

/-- `write(data)` from `server.js`. -/
def ServerCircularBuffer.write (s : ServerCircularBuffer) (data : List Nat) :
    ServerCircularBuffer :=
  data.foldl ServerCircularBuffer.write1 s

/-- `read()` from `server.js`. -/
def ServerCircularBuffer.read (s : ServerCircularBuffer) :
    ServerCircularBuffer × Option Nat :=
  if s.count = 0 then (s, none)
  else ({ s with tail := (s.tail + 1) % s.size, count := s.count - 1 },
        some (s.buffer.getD s.tail 0))

end PLI

/-- **C1.** For every opcode, address and payload each a single byte
(0–255), `buildCommand` returns exactly the 4-byte command
`[opcode, address, payload, checksum]` with
`checksum = opcode XOR address XOR payload XOR 0xFF`; the checksum is
itself a byte, so the `Buffer.from` truncation in the source is the
identity. The embedding is a pure function, so the no-side-effects
part holds by construction. -/
theorem buildCommand_spec (cmd addr data : Nat)
    (h1 : cmd < 256) (h2 : addr < 256) (h3 : data < 256) :
    PLI.buildCommand cmd addr data =
      [cmd, addr, data, ((cmd ^^^ addr) ^^^ data) ^^^ 0xFF] ∧
    (PLI.buildCommand cmd addr data).length = 4 ∧
    ∀ b ∈ PLI.buildCommand cmd addr data, b < 256 := by
  refine ⟨rfl, rfl, ?_⟩
  have h256 : (256 : Nat) = 2 ^ 8 := by norm_num
  have hx : ((cmd ^^^ addr) ^^^ data) ^^^ 0xFF < 256 := by
    rw [h256] at h1 h2 h3 ⊢
    exact Nat.xor_lt_two_pow
      (Nat.xor_lt_two_pow (Nat.xor_lt_two_pow h1 h2) h3) (by norm_num)
  intro b hb
  simp only [PLI.buildCommand, List.mem_cons, List.mem_singleton] at hb
  rcases hb with rfl | rfl | rfl | rfl | h
  · exact h1
  · exact h2
  · exact h3
  · exact hx
  · cases h

/-- Witness for C1 at the driver's own read command `0x14` addressed
to the battery-voltage register 50. -/
theorem buildCommand_spec_witness :
    PLI.buildCommand 0x14 50 0 =
      [0x14, 50, 0, ((0x14 ^^^ 50) ^^^ 0) ^^^ 0xFF] ∧
    (PLI.buildCommand 0x14 50 0).length = 4 ∧
    ∀ b ∈ PLI.buildCommand 0x14 50 0, b < 256 :=
  buildCommand_spec 0x14 50 0 (by decide) (by decide) (by decide)

/-- **C3.** For every pointer in 0..29 and day in 1..30 the history
offset computed by `readHistory` lies within
`[logStart, logStart + 210)`. -/
theorem historyOffset_bounds (p m : Int)
    (hp0 : 0 ≤ p) (hp1 : p ≤ 29) (hm0 : 1 ≤ m) (hm1 : m ≤ 30) :
    PLI.logStart ≤ PLI.historyOffset p m ∧
      PLI.historyOffset p m < PLI.logStart + 210 := by
  unfold PLI.historyOffset PLI.baseOffset PLI.logStart PLI.ringSize
  dsimp only
  split <;> omega

/-- Witness for C3 at the spec's own example `pointer = 2`,
`day = 10`, where the raw offset `60 - 63` wraps to `207`. -/
theorem historyOffset_bounds_witness :
    PLI.logStart ≤ PLI.historyOffset 2 10 ∧
      PLI.historyOffset 2 10 < PLI.logStart + 210 :=
  historyOffset_bounds 2 10 (by decide) (by decide) (by decide) (by decide)

/-- **C4.** For every 7-byte record `b0..b6` (and any voltage ratio),
`parseDayRecord` reconstructs `chargeAh = b4 + (b6 & 0x0F)*256` and
`loadAh = b5 + ((b6 & 0xF0) >> 4)*256`; at the concrete record
`[10,20,30,40,50,60,0x13]` this yields `chargeAh = 818` and
`loadAh = 316`. -/
theorem parseDayRecord_packed_nibbles (r : ℚ) (b0 b1 b2 b3 b4 b5 b6 : Nat) :
    (PLI.parseDayRecord r [b0, b1, b2, b3, b4, b5, b6]).chargeAh =
      b4 + (b6 &&& 0x0F) * 256 ∧
    (PLI.parseDayRecord r [b0, b1, b2, b3, b4, b5, b6]).loadAh =
      b5 + ((b6 &&& 0xF0) >>> 4) * 256 ∧
    (PLI.parseDayRecord r [10, 20, 30, 40, 50, 60, 0x13]).chargeAh = 818 ∧
    (PLI.parseDayRecord r [10, 20, 30, 40, 50, 60, 0x13]).loadAh = 316 :=
  ⟨rfl, rfl, rfl, rfl⟩


/-- Unfolding equation for the `0x80` error branch of `processResponses`. -/
theorem processResponses_err (pending : List PLI.Pending) (c : Nat) (rest2 : List Nat) :
    PLI.processResponses (0x80 :: c :: rest2) pending =
      ⟨(PLI.processResponses rest2 pending).buffer,
       (PLI.processResponses rest2 pending).pending,
       (PLI.processResponses rest2 pending).resolved,
       c :: (PLI.processResponses rest2 pending).errors⟩ := by
  rw [PLI.processResponses.eq_def]
  dsimp only
  rw [if_neg (by decide), if_pos rfl]

/-- Unfolding equation for the byte-discarding branch of `processResponses`. -/
theorem processResponses_skip (b : Nat) (rest : List Nat) (pending : List PLI.Pending)
    (hb : ¬b = 0xC8) (hb2 : ¬b = 0x80) :
    PLI.processResponses (b :: rest) pending = PLI.processResponses rest pending := by
  rw [PLI.processResponses.eq_def]
  dsimp only
  rw [if_neg hb, if_neg hb2]

/-- Helper: whenever a `processResponses` run resolves a request, the
resolved request was the head (oldest entry) of the pending list and
exactly that one entry was removed. -/
theorem processResponses_resolved_oldest (buf : List Nat) (pend : List PLI.Pending) :
    ∀ q val, (PLI.processResponses buf pend).resolved = some (q, val) →
      pend = q :: (PLI.processResponses buf pend).pending := by
  induction buf, pend using PLI.processResponses.induct with
  | case1 pending =>
      intro q val h
      exact Option.noConfusion h
  | case2 pending =>
      intro q val h
      exact Option.noConfusion h
  | case3 v rest2 p ps =>
      intro q val h
      replace h : some (p, v) = some (q, val) := h
      injection h with h1
      injection h1 with h2 h3
      subst h2
      rfl
  | case4 head rest2 ih =>
      intro q val h
      exact ih q val h
  | case5 pending hb =>
      intro q val h
      exact Option.noConfusion h
  | case6 pending c rest2 hb ih =>
      intro q val h
      rw [processResponses_err] at h ⊢
      exact ih q val h
  | case7 b rest pending hb hb2 ih =>
      intro q val h
      rw [processResponses_skip b rest pending hb hb2] at h ⊢
      exact ih q val h

/-- Unfolding equation for the `0x80..0x88` error branch of
`processResponsesV2`. -/
theorem processResponsesV2_err (b : Nat) (rest : List Nat) (pending : List PLI.Pending)
    (hb : ¬b = 0xC8) (hb2 : 0x80 ≤ b ∧ b ≤ 0x88) :
    PLI.processResponsesV2 (b :: rest) pending =
      ⟨(PLI.processResponsesV2 rest pending).buffer,
       (PLI.processResponsesV2 rest pending).pending,
       (PLI.processResponsesV2 rest pending).resolved,
       b :: (PLI.processResponsesV2 rest pending).errors⟩ := by
  rw [PLI.processResponsesV2.eq_def]
  dsimp only
  rw [if_neg hb, if_pos hb2]

/-- Unfolding equation for the byte-discarding branch of
`processResponsesV2`. -/
theorem processResponsesV2_skip (b : Nat) (rest : List Nat) (pending : List PLI.Pending)
    (hb : ¬b = 0xC8) (hb2 : ¬(0x80 ≤ b ∧ b ≤ 0x88)) :
    PLI.processResponsesV2 (b :: rest) pending = PLI.processResponsesV2 rest pending := by
  rw [PLI.processResponsesV2.eq_def]
  dsimp only
  rw [if_neg hb, if_neg hb2]

/-- Helper: the analogue of `processResponses_resolved_oldest` for the
second driver variant. -/
theorem processResponsesV2_resolved_oldest (buf : List Nat) (pend : List PLI.Pending) :
    ∀ q val, (PLI.processResponsesV2 buf pend).resolved = some (q, val) →
      pend = q :: (PLI.processResponsesV2 buf pend).pending := by
  induction buf, pend using PLI.processResponsesV2.induct with
  | case1 pending =>
      intro q val h
      exact Option.noConfusion h
  | case2 pending =>
      intro q val h
      exact Option.noConfusion h
  | case3 v rest2 p ps =>
      intro q val h
      replace h : some (p, v) = some (q, val) := h
      injection h with h1
      injection h1 with h2 h3
      subst h2
      rfl
  | case4 head rest2 ih =>
      intro q val h
      exact ih q val h
  | case5 b rest pending hb hb2 ih =>
      intro q val h
      rw [processResponsesV2_err b rest pending hb hb2] at h ⊢
      exact ih q val h
  | case6 b rest pending hb hb2 ih =>
      intro q val h
      rw [processResponsesV2_skip b rest pending hb hb2] at h ⊢
      exact ih q val h

/-- **C2.** When the decoder extracts a complete Data frame
`[0xC8, value]` at the head of the buffer and at least one pending
request exists, both driver variants resolve the oldest pending
request with the value — regardless of the address `p.addr` it was
issued for — and remove exactly that entry, leaving the rest of the
buffer; and in general any run that resolves a request resolved the
head (oldest) pending entry and removed exactly it. -/
theorem dataFrame_resolves_oldest (v : Nat) (rest : List Nat) (p : PLI.Pending)
    (ps : List PLI.Pending) (buf : List Nat) (pend : List PLI.Pending)
    (q : PLI.Pending) (val : Nat)
    (h1 : (PLI.processResponses buf pend).resolved = some (q, val))
    (h2 : (PLI.processResponsesV2 buf pend).resolved = some (q, val)) :
    PLI.processResponses (0xC8 :: v :: rest) (p :: ps) =
      ⟨rest, ps, some (p, v), []⟩ ∧
    PLI.processResponsesV2 (0xC8 :: v :: rest) (p :: ps) =
      ⟨rest, ps, some (p, v), []⟩ ∧
    pend = q :: (PLI.processResponses buf pend).pending ∧
    pend = q :: (PLI.processResponsesV2 buf pend).pending :=
  ⟨rfl, rfl, processResponses_resolved_oldest buf pend q val h1,
    processResponsesV2_resolved_oldest buf pend q val h2⟩

/-- Witness for C2 at the spec's own example: a pending read of
address 50 and delivered bytes `[0xC8, 138]` resolve with `138`. -/
theorem dataFrame_resolves_oldest_witness :
    PLI.processResponses (0xC8 :: 138 :: []) (⟨50, 0⟩ :: []) =
      ⟨[], [], some (⟨50, 0⟩, 138), []⟩ ∧
    PLI.processResponsesV2 (0xC8 :: 138 :: []) (⟨50, 0⟩ :: []) =
      ⟨[], [], some (⟨50, 0⟩, 138), []⟩ ∧
    ([⟨50, 0⟩] : List PLI.Pending) =
      ⟨50, 0⟩ :: (PLI.processResponses [0xC8, 138] [⟨50, 0⟩]).pending ∧
    ([⟨50, 0⟩] : List PLI.Pending) =
      ⟨50, 0⟩ :: (PLI.processResponsesV2 [0xC8, 138] [⟨50, 0⟩]).pending :=
  dataFrame_resolves_oldest 138 [] ⟨50, 0⟩ [] [0xC8, 138] [⟨50, 0⟩] ⟨50, 0⟩ 138
    rfl rfl

/-- **C6 counterexample.** With the buffer holding only the prefix
`0xC8` and a pending request, both decoder variants consume the
prefix (the buffer does not keep it), and delivering the value byte
`42` afterwards resolves nothing: the claimed
leave-both-bytes-and-resume behavior does not hold. -/
theorem partialFrame_prefix_consumed_cex :
    (PLI.processResponses [0xC8] [⟨50, 0⟩]).buffer ≠ [0xC8] ∧
    (PLI.processResponsesV2 [0xC8] [⟨50, 0⟩]).buffer ≠ [0xC8] ∧
    (PLI.processResponses
        ((PLI.processResponses [0xC8] [⟨50, 0⟩]).buffer ++ [42])
        (PLI.processResponses [0xC8] [⟨50, 0⟩]).pending).resolved = none ∧
    (PLI.processResponsesV2
        ((PLI.processResponsesV2 [0xC8] [⟨50, 0⟩]).buffer ++ [42])
        (PLI.processResponsesV2 [0xC8] [⟨50, 0⟩]).pending).resolved = none := by
  decide

/-- **C6 amended.** When the head byte is the data prefix `0xC8` but
no second byte is yet available, both decoder variants consume the
prefix, leaving the buffer empty and the pending set unchanged; the
value byte delivered next is treated as a fresh head byte, and
— unless it is itself `0xC8` or an error code — is discarded without
emitting any Data frame. -/
theorem partialFrame_prefix_consumed (p : PLI.Pending) (ps : List PLI.Pending)
    (v : Nat) (hv1 : ¬v = 0xC8) (hv2 : ¬(0x80 ≤ v ∧ v ≤ 0x88)) :
    PLI.processResponses [0xC8] (p :: ps) = ⟨[], p :: ps, none, []⟩ ∧
    PLI.processResponsesV2 [0xC8] (p :: ps) = ⟨[], p :: ps, none, []⟩ ∧
    PLI.processResponses [v] (p :: ps) = ⟨[], p :: ps, none, []⟩ ∧
    PLI.processResponsesV2 [v] (p :: ps) = ⟨[], p :: ps, none, []⟩ := by
  have hv3 : ¬v = 0x80 := fun h => hv2 (by omega)
  refine ⟨rfl, rfl, ?_, ?_⟩
  · rw [processResponses_skip v [] (p :: ps) hv1 hv3]
    exact PLI.processResponses.eq_1 _
  · rw [processResponsesV2_skip v [] (p :: ps) hv1 hv2]
    exact PLI.processResponsesV2.eq_1 _

/-- Witness for the amended C6 at a pending read of address 50 with
late value byte `42`. -/
theorem partialFrame_prefix_consumed_witness :
    PLI.processResponses [0xC8] (⟨50, 0⟩ :: []) = ⟨[], ⟨50, 0⟩ :: [], none, []⟩ ∧
    PLI.processResponsesV2 [0xC8] (⟨50, 0⟩ :: []) = ⟨[], ⟨50, 0⟩ :: [], none, []⟩ ∧
    PLI.processResponses [42] (⟨50, 0⟩ :: []) = ⟨[], ⟨50, 0⟩ :: [], none, []⟩ ∧
    PLI.processResponsesV2 [42] (⟨50, 0⟩ :: []) = ⟨[], ⟨50, 0⟩ :: [], none, []⟩ :=
  partialFrame_prefix_consumed ⟨50, 0⟩ [] 42 (by decide) (by decide)

/-- **C7.** A read whose timer expires while its entry is still
pending is rejected with the timeout failure and its entry removed;
a Data frame delivered afterwards never resolves the stale request:
with the pending set vacated the late value is dropped outright, and
no run over a pending set free of the stale id can resolve that id. -/
theorem read_timeout_cleanup (e : PLI.Pending) (v : Nat)
    (pending : List PLI.Pending) (h : ∀ x ∈ pending, x.id ≠ e.id) :
    PLI.onTimeout e.id [e] = ([], some (PLI.Failure.timeout e.id)) ∧
    (PLI.onData v []).resolved = none ∧
    (PLI.onData v []).buffer = [] ∧
    PLI.resolvedId (PLI.onData v pending) ≠ some e.id := by
  refine ⟨?_, rfl, rfl, ?_⟩
  · simp [PLI.onTimeout]
  · cases pending with
    | nil => exact fun hc => Option.noConfusion hc
    | cons p ps =>
        have hp : p.id ≠ e.id := h p (List.mem_cons_self p ps)
        intro hc
        replace hc : some p.id = some e.id := hc
        exact hp (Option.some.inj hc)

/-- Witness for C7: a read of address 50 with map key 1 times out,
and the later frame value 7 resolves nothing. -/
theorem read_timeout_cleanup_witness :
    PLI.onTimeout 1 [⟨50, 1⟩] = ([], some (PLI.Failure.timeout 1)) ∧
    (PLI.onData 7 []).resolved = none ∧
    (PLI.onData 7 []).buffer = [] ∧
    PLI.resolvedId (PLI.onData 7 []) ≠ some 1 :=
  read_timeout_cleanup ⟨50, 1⟩ 7 [] (by simp)

/-- **C8 counterexample.** With one request outstanding when the
connection drops, neither close handler rejects anything: the
pending entry survives and no `channelClosed` failure is emitted,
contradicting the claim that every outstanding request fails
immediately with a connection-lost failure. -/
theorem connectionDrop_no_cancellation_cex :
    (PLI.onClose ⟨[⟨50, 1⟩], true, false⟩).1.pending = [⟨50, 1⟩] ∧
    (PLI.onClose ⟨[⟨50, 1⟩], true, false⟩).2 = [] ∧
    ¬ PLI.Failure.channelClosed 1 ∈ (PLI.onClose ⟨[⟨50, 1⟩], true, false⟩).2 ∧
    (PLI.onCloseV2 ⟨[⟨50, 1⟩], true, false⟩).1.pending = [⟨50, 1⟩] ∧
    (PLI.onCloseV2 ⟨[⟨50, 1⟩], true, false⟩).2 = [] := by
  decide

/-- **C8 amended.** When the connection drops, the `pli-driver.js`
close handler only clears `isConnected`, and the second variant's
close handler only schedules a reconnect: in both, the pending set is
unchanged and no failure of any kind — in particular no
connection-lost failure — is issued; outstanding requests are left to
their own timeout timers. -/
theorem connectionDrop_no_cancellation (s : PLI.DriverState) :
    (PLI.onClose s).1.pending = s.pending ∧
    (PLI.onClose s).1.isConnected = false ∧
    (PLI.onClose s).2 = [] ∧
    (PLI.onCloseV2 s).1.pending = s.pending ∧
    (PLI.onCloseV2 s).2 = [] := by
  refine ⟨rfl, rfl, rfl, ?_, rfl⟩
  unfold PLI.onCloseV2 PLI.scheduleReconnect
  dsimp only
  split <;> rfl

/-- **C9 counterexample.** Two `read()` calls issued while connected,
the second submitted while the first is still outstanding, leave two
simultaneous PendingRequest entries: the driver performs no
serialization, so "at most one unresolved PendingRequest" fails. -/
theorem read_no_serialization_cex :
    (PLI.submitRead (PLI.submitRead ⟨[], true, false⟩ 50 1).1 51 2).1.pending
      = [⟨50, 1⟩, ⟨51, 2⟩] ∧
    ¬ (PLI.submitRead (PLI.submitRead ⟨[], true, false⟩ 50 1).1 51 2).1.pending.length ≤ 1 := by
  decide

/-- **C9 amended.** The driver does not queue concurrent reads: every
`read()` issued while connected unconditionally appends a fresh
PendingRequest entry, so a read submitted while another is
outstanding yields a second simultaneous entry; the
single-outstanding discipline is left to callers (the driver's own
accessors await each read before issuing the next). -/
theorem read_no_serialization (s : PLI.DriverState) (addr id : Nat)
    (h : s.isConnected = true) :
    (PLI.submitRead s addr id).1.pending = s.pending ++ [⟨addr, id⟩] ∧
    (PLI.submitRead s addr id).2 = true := by
  simp [PLI.submitRead, h]

/-- Witness for the amended C9: a second read appended behind an
outstanding one. -/
theorem read_no_serialization_witness :
    (PLI.submitRead ⟨[⟨50, 1⟩], true, false⟩ 51 2).1.pending
      = [⟨50, 1⟩] ++ [⟨51, 2⟩] ∧
    (PLI.submitRead ⟨[⟨50, 1⟩], true, false⟩ 51 2).2 = true :=
  read_no_serialization ⟨[⟨50, 1⟩], true, false⟩ 51 2 rfl

/-- **C5 counterexample.** At raw value 10 with system-voltage ratio
2 the claimed reference decode `raw * systemVoltageRatio` gives 20,
but the driver's battery-voltage decode hard-codes a 12 V system and
returns 10; additionally, the first variant's state table stops at
`LVD`, so state code 6 decodes to `UNKNOWN` there, not `SHORT_EQ`. -/
theorem decode_table_cex :
    PLI.readBatteryVoltage 10 = 10 ∧
    PLI.specBatteryVoltage 2 10 = 20 ∧
    PLI.readBatteryVoltage 10 ≠ PLI.specBatteryVoltage 2 10 ∧
    PLI.readStateV1 6 = "UNKNOWN" ∧
    PLI.readStateV1 6 ≠ "SHORT_EQ" := by
  refine ⟨by norm_num [PLI.readBatteryVoltage],
    by norm_num [PLI.specBatteryVoltage],
    by norm_num [PLI.readBatteryVoltage, PLI.specBatteryVoltage],
    rfl, by decide⟩

/-- **C5 amended.** For every raw value and model the driver decodes:
battery voltage = raw (the 12 V system is hard-coded, so the
system-voltage ratio is never applied), battery temperature =
raw - 100, state of charge = raw, solar voltage = raw * 0.5, charge
current = raw * modelMultiplier with PL20 = 0.1, PL40 = 0.2,
PL60 = 0.4; the second variant's state table maps 0..7 to BOOST,
EQUALIZE, ABSORPTION, FLOAT, RESTRICTED, LVD, SHORT_EQ, UNDEFINED
and any other code to UNKNOWN (the first variant's table covers only
0..5, sending 6 and 7 to UNKNOWN as well). -/
theorem decode_table (rawQ : ℚ) (rawZ : Int) (rawN stateCode : Nat)
    (m : PLI.Model) (h8 : 8 ≤ stateCode) :
    PLI.readBatteryVoltage rawQ = rawQ ∧
    PLI.readBatteryTemp rawZ = rawZ - 100 ∧
    PLI.readSOC rawN = rawN ∧
    PLI.readSolarVoltage rawQ = rawQ * (1 / 2) ∧
    PLI.readChargeCurrent m rawQ = rawQ * PLI.modelMultiplier m ∧
    PLI.modelMultiplier PLI.Model.PL20 = 1 / 10 ∧
    PLI.modelMultiplier PLI.Model.PL40 = 2 / 10 ∧
    PLI.modelMultiplier PLI.Model.PL60 = 4 / 10 ∧
    PLI.readState 0 = "BOOST" ∧ PLI.readState 1 = "EQUALIZE" ∧
    PLI.readState 2 = "ABSORPTION" ∧ PLI.readState 3 = "FLOAT" ∧
    PLI.readState 4 = "RESTRICTED" ∧ PLI.readState 5 = "LVD" ∧
    PLI.readState 6 = "SHORT_EQ" ∧ PLI.readState 7 = "UNDEFINED" ∧
    PLI.readState stateCode = "UNKNOWN" ∧
    PLI.readStateV1 6 = "UNKNOWN" ∧ PLI.readStateV1 7 = "UNKNOWN" := by
  obtain ⟨k, rfl⟩ : ∃ k, stateCode = k + 8 := ⟨stateCode - 8, by omega⟩
  refine ⟨?_, rfl, rfl, rfl, rfl, rfl, rfl, rfl, rfl, rfl, rfl, rfl,
    rfl, rfl, rfl, rfl, rfl, rfl, rfl⟩
  unfold PLI.readBatteryVoltage
  norm_num

/-- Witness for the amended C5 at the spec's own test values:
temperature raw 80 (→ −20), solar raw 37 (→ 18.5 via the generic
formula), model PL40, and the out-of-range state code 9. -/
theorem decode_table_witness :
    PLI.readBatteryVoltage 37 = 37 ∧
    PLI.readBatteryTemp 80 = 80 - 100 ∧
    PLI.readSOC 85 = 85 ∧
    PLI.readSolarVoltage 37 = 37 * (1 / 2) ∧
    PLI.readChargeCurrent PLI.Model.PL40 37 = 37 * PLI.modelMultiplier PLI.Model.PL40 ∧
    PLI.modelMultiplier PLI.Model.PL20 = 1 / 10 ∧
    PLI.modelMultiplier PLI.Model.PL40 = 2 / 10 ∧
    PLI.modelMultiplier PLI.Model.PL60 = 4 / 10 ∧
    PLI.readState 0 = "BOOST" ∧ PLI.readState 1 = "EQUALIZE" ∧
    PLI.readState 2 = "ABSORPTION" ∧ PLI.readState 3 = "FLOAT" ∧
    PLI.readState 4 = "RESTRICTED" ∧ PLI.readState 5 = "LVD" ∧
    PLI.readState 6 = "SHORT_EQ" ∧ PLI.readState 7 = "UNDEFINED" ∧
    PLI.readState 9 = "UNKNOWN" ∧
    PLI.readStateV1 6 = "UNKNOWN" ∧ PLI.readStateV1 7 = "UNKNOWN" :=
  decode_table 37 80 85 9 PLI.Model.PL40 (by decide)

/-- **C10.** Evaluation of the driver's circular buffer at the
failing input: writing the single byte 5 into an empty 1024-byte
buffer and reading one byte back yields 0 — `writeByte` advances
`head` before storing, so the byte lands at index 1 while `tail`
still points at the never-written index 0 — instead of the written
byte 5.  The sibling server-side buffer round-trips the same input
correctly, which is what the claim describes. -/
theorem circularBuffer_fifo_eval :
    (((PLI.CircularBuffer.empty 1024).write [5]).readByte).2 = some 0 ∧
    some (0 : Nat) ≠ some 5 ∧
    (((PLI.ServerCircularBuffer.empty 1024).write [5]).read).2 = some 5 := by
  refine ⟨?_, by decide, ?_⟩ <;> rfl
